import Mathlib

/-!
Verification of the `beamer` display-layout tool (`beamer.py`).

The development shallowly embeds the core of `beamer.py`:

* the line scanner `_sscanf` together with the two class-level regexes
  `Output._xrandr_regex` and `Mode._xrandr_regex` (embedded as hand-written
  deterministic matchers over the character list of a line; the comments on
  each matcher explain why the committed choices coincide with the
  backtracking regex semantics on these particular patterns);
* the query parser `scan_xrandr_outputs` (the external `xrandr --query`
  invocation is replaced by the raw text argument; the uncaught `IndexError`
  raised by `lines.pop(0)` on an exhausted list is modelled as `none`);
* the layout synthesizers `beamer_clone_args`, `beamer_side_args`,
  `beamer_single_output_args` and `beamer_row_args`, parameterised by the
  parsed batch of `Output` records.  Python's "print a diagnostic and return
  `None`" paths are modelled as `BeamerResult.err` carrying the diagnostic's
  data; an uncaught Python exception is modelled as `BeamerResult.crash`.

Python semantics that the claims depend on are embedded explicitly:
`str(None) = "None"`, `bool(None) = False`, `int(None)` raising `TypeError`,
tuple comparison (lexicographic), `max` over tuples, and list indexing with
negative indices counting from the end.
-/

/-! ## Python value and cast semantics -/

/-- A Python value as stored by `_sscanf` in its result dict.  Python floats
are modelled by exact rationals (the parsed frequencies are short decimal
literals and no claim depends on IEEE rounding). -/
inductive PyVal where
  | vint (n : Int)
  | vfloat (q : Rat)
  | vstr (s : String)
  | vbool (b : Bool)
deriving DecidableEq, Repr

/-- Value of a decimal digit string (the regex groups only ever capture
`\d+`, so no error case is needed). -/
def digitsToNat (cs : List Char) : Nat :=
  cs.foldl (fun acc c => acc * 10 + (c.toNat - 48)) 0

/-- Python `int(s)` on a regex-captured group of shape `\d+` or `[+-]\d+`. -/
def pyInt (s : String) : Int :=
  match s.data with
  | '+' :: ds => (digitsToNat ds : Int)
  | '-' :: ds => -(digitsToNat ds : Int)
  | ds => (digitsToNat ds : Int)

/-- Python `float(s)` on a regex-captured group of shape `\d+\.\d+`,
as an exact rational. -/
def pyFloat (s : String) : Rat :=
  match s.splitOn "." with
  | [a, b] => (digitsToNat a.data : Rat) + (digitsToNat b.data : Rat) / ((10 : Rat) ^ b.length)
  | _ => 0

/-- Python `str(x)` applied to an optional matched group:
`str(None)` is the four-character string `"None"`. -/
def pyStr : Option String → String
  | some s => s
  | none => "None"

/-- Python `bool(x)` applied to an optional matched group:
`bool(None) = False`, `bool(s) = (s != "")`. -/
def pyTruthy : Option String → Bool
  | some s => s ≠ ""
  | none => false

/-- ASCII `\s` character class (`re.ASCII` is set on both regexes). -/
def isSpaceA (c : Char) : Bool :=
  c == ' ' || c == '\t' || c == '\n' || c == '\r' || c == '\x0b' || c == '\x0c'

/-! ## The two regexes of `beamer.py`, embedded as line matchers -/

/-- Captured groups of `Mode._xrandr_regex`
`\s+(?P<width>\d+)x(?P<height>\d+)\s+(?P<frequency>\d+\.\d+)(?P<active>\*)?(?P<preferred>\+)?`.
The groups `width`, `height` and `frequency` are mandatory, so they are
captured whenever the line matches; the two markers are optional. -/
structure ModeGroups where
  width : String
  height : String
  frequency : String
  active : Option String
  preferred : Option String
deriving DecidableEq, Repr

/-- Matcher for `Mode._xrandr_regex` (anchored at the start of the line,
trailing text permitted, as with `re.match`).  Every quantifier in the
pattern is committed maximal-munch: each `\d+`/`\s+` is followed by a
character outside its own class, so regex backtracking can never produce a
match that maximal munch misses. -/
def modeMatchL (cs : List Char) : Option ModeGroups :=
  let (sp, r1) := cs.span isSpaceA
  if sp.isEmpty then none else
  let (wd, r2) := r1.span Char.isDigit
  if wd.isEmpty then none else
  match r2 with
  | 'x' :: r3 =>
    let (hd, r4) := r3.span Char.isDigit
    if hd.isEmpty then none else
    let (sp2, r5) := r4.span isSpaceA
    if sp2.isEmpty then none else
    let (f1, r6) := r5.span Char.isDigit
    if f1.isEmpty then none else
    match r6 with
    | '.' :: r7 =>
      let (f2, r8) := r7.span Char.isDigit
      if f2.isEmpty then none else
      let (act, r9) := match r8 with
        | '*' :: r => (some "*", r)
        | r => ((none : Option String), r)
      let pref : Option String := match r9 with
        | '+' :: _ => some "+"
        | _ => none
      some { width := ⟨wd⟩, height := ⟨hd⟩, frequency := ⟨f1 ++ '.' :: f2⟩,
             active := act, preferred := pref }
    | _ => none
  | _ => none

def modeMatch (s : String) : Option ModeGroups := modeMatchL s.data

/-- Captured groups of `Output._xrandr_regex`.  `name`, `connected` and
`info` are mandatory groups; `primary` and `physical_size` are optional;
the four geometry groups match or fail together (they live in one optional
non-capturing group), hence a single optional 4-tuple
(width, height, xoffset, yoffset). -/
structure OutputGroups where
  name : String
  connected : String
  primary : Option String
  geometry : Option (String × String × String × String)
  info : String
  physical_size : Option String
deriving DecidableEq, Repr

def OutputGroups.width (g : OutputGroups) : Option String := g.geometry.map (·.1)
def OutputGroups.height (g : OutputGroups) : Option String := g.geometry.map (·.2.1)
def OutputGroups.xoffset (g : OutputGroups) : Option String := g.geometry.map (·.2.2.1)
def OutputGroups.yoffset (g : OutputGroups) : Option String := g.geometry.map (·.2.2.2)

/-- Returns `cs` with the literal word `p` removed from its front, if present. -/
def stripPrefixL : List Char → List Char → Option (List Char)
  | [], cs => some cs
  | _ :: _, [] => none
  | p :: ps, c :: cs => if p == c then stripPrefixL ps cs else none

/-- The geometry sub-pattern `\ (?P<width>\d+)x(?P<height>\d+)(?P<xoffset>[+-]\d+)(?P<yoffset>[+-]\d+)`. -/
def geometryMatch (cs : List Char) :
    Option ((String × String × String × String) × List Char) :=
  match cs with
  | ' ' :: r1 =>
    let (wd, r2) := r1.span Char.isDigit
    if wd.isEmpty then none else
    match r2 with
    | 'x' :: r3 =>
      let (hd, r4) := r3.span Char.isDigit
      if hd.isEmpty then none else
      (match r4 with
       | cx :: r5 =>
         if cx == '+' || cx == '-' then
           let (xd, r6) := r5.span Char.isDigit
           if xd.isEmpty then none else
           match r6 with
           | cy :: r7 =>
             if cy == '+' || cy == '-' then
               let (yd, r8) := r7.span Char.isDigit
               if yd.isEmpty then none else
               some ((⟨wd⟩, ⟨hd⟩, ⟨cx :: xd⟩, ⟨cy :: yd⟩), r8)
             else none
           | [] => none
         else none
       | [] => none)
    | _ => none
  | _ => none

/-- Matcher for `Output._xrandr_regex`
`(?P<name>\S+)\ (?P<connected>(?:dis)?connected)(?P<primary>\ primary)?(?:geometry)?\ \((?P<info>.*?)\)(?:\ (?P<physical_size>.*))?`.

Committed choices coincide with backtracking here:
* `\S+` maximal then a literal space — a shorter name puts a non-space
  character where the space is required;
* `(?:dis)?connected` — "dis" and "connected" start with distinct letters;
* the optional ` primary` and geometry groups — on failure or on a failing
  continuation the skip-alternative requires `" ("` at a position that
  starts with `" p"` respectively a digit, so no input satisfies both paths;
* the non-greedy `(?P<info>.*?)\)` stops at the first `)` (`.` does not
  cross a newline), and the optional trailing group that follows can never
  fail, so the lazy group is never widened;
* `(?P<physical_size>.*)` takes the rest of the line up to a newline. -/
def outputMatchL (cs : List Char) : Option OutputGroups :=
  let (nm, r1) := cs.span (fun c => !isSpaceA c)
  if nm.isEmpty then none else
  match r1 with
  | ' ' :: r2 =>
    let conn : Option (String × List Char) :=
      match stripPrefixL "disconnected".data r2 with
      | some r => some ("disconnected", r)
      | none =>
        match stripPrefixL "connected".data r2 with
        | some r => some ("connected", r)
        | none => none
    match conn with
    | none => none
    | some (connStr, r3) =>
      let (prim, r4) : Option String × List Char :=
        match stripPrefixL " primary".data r3 with
        | some r => (some " primary", r)
        | none => (none, r3)
      let (geo, r5) : Option (String × String × String × String) × List Char :=
        match geometryMatch r4 with
        | some (g, r) => (some g, r)
        | none => (none, r4)
      match r5 with
      | ' ' :: '(' :: r6 =>
        let (inf, r7) := r6.span (fun c => c ≠ ')' ∧ c ≠ '\n')
        match r7 with
        | ')' :: r8 =>
          let ps : Option String := match r8 with
            | ' ' :: r9 => some ⟨r9.takeWhile (· ≠ '\n')⟩
            | _ => none
          some { name := ⟨nm⟩, connected := connStr, primary := prim,
                 geometry := geo, info := ⟨inf⟩, physical_size := ps }
        | _ => none
      | _ => none
  | _ => none

def outputMatch (s : String) : Option OutputGroups := outputMatchL s.data

/-! ## The `_sscanf` result dict -/

/-- One `result[key] = casts[key](value)` step of `_sscanf`: the cast
returns `none` when the Python call raises `TypeError`, in which case the
key is left out of the dict (`except TypeError: pass`). -/
def tryCast (key : String) (v : Option PyVal) : List (String × PyVal) :=
  match v with
  | some x => [(key, x)]
  | none => []

/-- Cast `int`: `int(None)` raises `TypeError`, so the key is omitted. -/
def cast_int (v : Option String) : Option PyVal := v.map (fun s => .vint (pyInt s))

/-- Cast `float`: `float(None)` raises `TypeError`, so the key is omitted. -/
def cast_float (v : Option String) : Option PyVal := v.map (fun s => .vfloat (pyFloat s))

/-- Cast `str`: `str` never raises on `None` — `str(None)` is `"None"`. -/
def cast_str (v : Option String) : Option PyVal := some (.vstr (pyStr v))

/-- Cast `bool`: `bool` never raises on `None` — `bool(None)` is `False`. -/
def cast_bool (v : Option String) : Option PyVal := some (.vbool (pyTruthy v))

/-- Cast `lambda x: x == "connected"`: comparing `None` with a string is
`False`, never an exception. -/
def cast_connected (v : Option String) : Option PyVal :=
  some (.vbool (v == some "connected"))

/-- The `_sscanf(line, Output._xrandr_regex, Output._xrandr_casts)` result dict,
in `groupdict()` (group-number) order. -/
def sscanfOutputDict (g : OutputGroups) : List (String × PyVal) :=
  tryCast "name" (cast_str (some g.name))
  ++ tryCast "connected" (cast_connected (some g.connected))
  ++ tryCast "primary" (cast_bool g.primary)
  ++ tryCast "width" (cast_int g.width)
  ++ tryCast "height" (cast_int g.height)
  ++ tryCast "xoffset" (cast_int g.xoffset)
  ++ tryCast "yoffset" (cast_int g.yoffset)
  ++ tryCast "info" (cast_str (some g.info))
  ++ tryCast "physical_size" (cast_str g.physical_size)

/-- The `_sscanf(line, Mode._xrandr_regex, Mode._xrandr_casts)` result dict. -/
def sscanfModeDict (g : ModeGroups) : List (String × PyVal) :=
  tryCast "width" (cast_int (some g.width))
  ++ tryCast "height" (cast_int (some g.height))
  ++ tryCast "frequency" (cast_float (some g.frequency))
  ++ tryCast "active" (cast_bool g.active)
  ++ tryCast "preferred" (cast_bool g.preferred)

def sscanfOutput (line : String) : Option (List (String × PyVal)) :=
  (outputMatch line).map sscanfOutputDict

def sscanfMode (line : String) : Option (List (String × PyVal)) :=
  (modeMatch line).map sscanfModeDict

/-- Python dict lookup `d.get(k)` on the association-list model. -/
def dictLookup (d : List (String × PyVal)) (k : String) : Option PyVal :=
  (d.find? (fun p => p.1 == k)).map (·.2)

/-! ## Data model -/

/-- The pydantic `Mode` record. -/
structure Mode where
  width : Int
  height : Int
  frequency : Rat
  active : Bool
  preferred : Bool
deriving DecidableEq, Repr

/-- Embeds `Mode.model_validate(mode)` on a `_sscanf` dict for a matched mode line
(the three typed groups are mandatory in the regex, so validation always
succeeds). -/
def Mode.ofGroups (g : ModeGroups) : Mode :=
  { width := pyInt g.width
    height := pyInt g.height
    frequency := pyFloat g.frequency
    active := pyTruthy g.active
    preferred := pyTruthy g.preferred }

/-- The pydantic `Output` record. -/
structure Output where
  name : String
  connected : Bool
  primary : Bool
  width : Option Int
  height : Option Int
  xoffset : Option Int
  yoffset : Option Int
  info : String
  physical_size : String
  modes : List Mode
deriving DecidableEq, Repr

/-- Embeds `Output(**current_output, modes=tuple(modes))` on a `_sscanf` dict for a
matched output-header line.  Note `physical_size` is a *required* `str`
field of the pydantic model: construction succeeds exactly because
`str(None)` put the string `"None"` in the dict when the group was absent. -/
def Output.ofGroups (g : OutputGroups) (modes : List Mode) : Output :=
  { name := g.name
    connected := g.connected == "connected"
    primary := pyTruthy g.primary
    width := (g.width).map pyInt
    height := (g.height).map pyInt
    xoffset := (g.xoffset).map pyInt
    yoffset := (g.yoffset).map pyInt
    info := g.info
    physical_size := pyStr g.physical_size
    modes := modes }

/-! ## Query parser (`scan_xrandr_outputs`) -/

/-- Python `text.split("\n")` (every occurrence splits; empties kept). -/
def splitNl : List Char → List (List Char)
  | [] => [[]]
  | '\n' :: cs => [] :: splitNl cs
  | c :: cs =>
    match splitNl cs with
    | [] => [[c]]
    | l :: ls => (c :: l) :: ls

/-- Embeds `query_text.split("\n")[1:]` — the first line is the
`Screen 0: ...` summary line and is discarded. -/
def splitLines (text : String) : List String :=
  ((splitNl text.data).map (fun l => (⟨l⟩ : String))).drop 1

/-- The `while (current_output := _sscanf(lines.pop(0), ...)) is None: pass`
loop: pop lines until the first output-header match; `none` models the
`IndexError` that `lines.pop(0)` raises when the list is exhausted without
ever matching. -/
def findFirstHeader : List String → Option (OutputGroups × List String)
  | [] => none
  | l :: ls =>
    match outputMatch l with
    | some g => some (g, ls)
    | none => findFirstHeader ls

/-- The `for line in filter(None, lines)` loop plus the final `yield`:
empty lines are skipped, a new header finalizes the accumulator, a mode
line extends it, anything else is ignored. -/
def scanRest : List String → OutputGroups → List Mode → List Output
  | [], cur, modes => [Output.ofGroups cur modes]
  | l :: ls, cur, modes =>
    if l = "" then scanRest ls cur modes
    else match outputMatch l with
      | some g => Output.ofGroups cur modes :: scanRest ls g []
      | none =>
        match modeMatch l with
        | some mg => scanRest ls cur (modes ++ [Mode.ofGroups mg])
        | none => scanRest ls cur modes

/-- Embeds `scan_xrandr_outputs`, with the text of `xrandr --query` passed in
place of the subprocess call.  `none` models the fatal uncaught
`IndexError` ("ParseError" in the design document's taxonomy) raised when
no line matches the output-header pattern. -/
def scan_xrandr_outputs (text : String) : Option (List Output) :=
  match findFirstHeader (splitLines text) with
  | none => none
  | some (g, rest) => some (scanRest rest g [])

/-- Embeds `connected_outputs`, parameterised by the parsed batch. -/
def connected_outputs (batch : List Output) : List Output :=
  batch.filter (·.connected)

/-! ## Layout synthesizer results -/

/-- The diagnostics printed by the synthesizers before returning `None`
(the design document's error taxonomy), carrying the data that the printed
message reports. -/
inductive BeamerError where
  /-- clone: `print("no matching resolution found")`. -/
  | noCommonResolution
  /-- side: `print(f"Which outputs should I use? Found {n}")`. -/
  | wrongOutputCount (found : Nat)
  /-- single output: `print(f"No output with index {index} connected")`. -/
  | indexNotConnected (index : Nat)
  /-- row: `error(f"Could not find output number {i}")` with `i = int(entry) - 1`. -/
  | outputNotFoundNumber (i : Int)
  /-- row: `error(f"Could not find output '{entry}'")`. -/
  | outputNotFoundName (entry : String)
  /-- row: `error("No outputs specified")`. -/
  | emptySelection
deriving DecidableEq, Repr

/-- Outcome of a synthesizer: the returned argument tuple, a printed
diagnostic followed by `return None`, or an uncaught Python exception. -/
inductive BeamerResult where
  | ok (args : List String)
  | err (e : BeamerError)
  | crash
deriving DecidableEq, Repr

/-! ## Clone -/

/-- The `(md.width, md.height)` set of one output (as a list; duplicates
are irrelevant to membership and to `max`). -/
def modeResolutions (o : Output) : List (Int × Int) :=
  o.modes.map (fun m => (m.width, m.height))

/-- Embeds `set.intersection(*sets)` over the connected outputs' resolution sets
(defined for a non-empty list of outputs, like the Python call). -/
def cloneResolutions : List Output → List (Int × Int)
  | [] => []
  | o :: os =>
    (modeResolutions o).filter
      (fun p => os.all (fun o2 => (modeResolutions o2).contains p))

/-- Python `<` on int pairs: lexicographic, first component first. -/
def tupleLt (a b : Int × Int) : Bool :=
  a.1 < b.1 || (a.1 == b.1 && a.2 < b.2)

/-- Python `max` on a collection of int pairs: `none` models the
`ValueError` raised on an empty collection. -/
def pyMax : List (Int × Int) → Option (Int × Int)
  | [] => none
  | x :: xs => some (xs.foldl (fun acc y => if tupleLt acc y then y else acc) x)

/-- Embeds `beamer_clone_args`, parameterised by the parsed batch.
With zero connected outputs `set.intersection(*())` raises `TypeError`,
which the `except ValueError` clause does not catch — an uncaught crash.
With a non-empty connected list, an empty intersection makes `max` raise
`ValueError`, which *is* caught and reported. -/
def beamer_clone_args (batch : List Output) : BeamerResult :=
  match connected_outputs batch with
  | [] => .crash
  | o :: os =>
    match pyMax (cloneResolutions (o :: os)) with
    | none => .err .noCommonResolution
    | some (w, h) =>
      .ok (["xrandr", "--output", o.name, "--mode", toString w ++ "x" ++ toString h]
        ++ os.flatMap (fun out =>
             ["--output", out.name, "--mode", toString w ++ "x" ++ toString h,
              "--same-as", o.name]))

/-! ## Side-by-side -/

/-- The four direction keys accepted by `main` (the `side_parameters` dict
has exactly these keys, and `main`'s pattern match only dispatches these). -/
inductive Side where
  | left
  | right
  | above
  | below
deriving DecidableEq, Repr

def side_parameters : Side → String
  | .left => "--left-of"
  | .right => "--right-of"
  | .above => "--above"
  | .below => "--below"

/-- Embeds `beamer_side_args`: exactly two connected outputs required;
the second is positioned relative to the first. -/
def beamer_side_args (side : Side) (batch : List Output) : BeamerResult :=
  match connected_outputs batch with
  | [a, b] =>
    .ok ["xrandr", "--output", a.name, "--auto",
         "--output", b.name, "--auto",
         side_parameters side, a.name]
  | outputs => .err (.wrongOutputCount outputs.length)

/-! ## Single output -/

/-- Embeds `beamer_single_output_args`.  Note the faithful quirk: `index` is used
only in the error message.  `activate, *outputs = connected_outputs()`
raises `ValueError` exactly when the iterator is empty, and otherwise binds
`activate` to the *first* connected output whatever `index` is. -/
def beamer_single_output_args (index : Nat) (batch : List Output) : BeamerResult :=
  match connected_outputs batch with
  | [] => .err (.indexNotConnected index)
  | activate :: outputs =>
    .ok (["xrandr", "--output", activate.name, "--auto"]
      ++ outputs.flatMap (fun out => ["--output", out.name, "--off"]))

/-! ## Row -/

/-- Embeds `entry.endswith("!")`. -/
def strEndsBang (s : String) : Bool := s.data.getLast? == some '!'

/-- Embeds `entry[:-1]`. -/
def strDropLast (s : String) : String := ⟨s.data.dropLast⟩

/-- Python `int(s)` on an arbitrary command-line token: surrounding
whitespace is stripped, then an optional sign and at least one digit must
make up the whole token, else `ValueError` (`none`).  (Underscore digit
grouping is not modelled; no repository input uses it.) -/
def pyIntParse (s : String) : Option Int :=
  let t := (s.data.dropWhile isSpaceA).reverse.dropWhile isSpaceA |>.reverse
  match t with
  | [] => none
  | '+' :: ds => if ds ≠ [] ∧ ds.all Char.isDigit then some (digitsToNat ds : Int) else none
  | '-' :: ds => if ds ≠ [] ∧ ds.all Char.isDigit then some (-(digitsToNat ds : Int)) else none
  | ds => if ds.all Char.isDigit then some (digitsToNat ds : Int) else none

/-- Python list indexing `l[i]`: negative indices count from the end;
`none` models `IndexError`. -/
def pyIndex {α : Type} (l : List α) (i : Int) : Option α :=
  if 0 ≤ i then l.get? i.toNat
  else if 0 ≤ i + l.length then l.get? (i + l.length).toNat
  else none

/-- Embeds the dict comprehension over output names, indexed at `entry` — on duplicate
names the later output wins, as in a dict comprehension. -/
def outputs_by_name (outputs : List Output) (entry : String) : Option Output :=
  outputs.reverse.find? (fun o => o.name == entry)

/-- Embeds `output.model_copy(update=dict(primary=primary))`. -/
def with_primary (o : Output) (p : Bool) : Output := { o with primary := p }

/-- One iteration of the `for entry in row` resolution loop. -/
def resolveEntry (outputs : List Output) (e : String) : Except BeamerError Output :=
  let primary := strEndsBang e
  let entry := if primary then strDropLast e else e
  match pyIntParse entry with
  | some n =>
    match pyIndex outputs (n - 1) with
    | some out => .ok (with_primary out primary)
    | none => .error (.outputNotFoundNumber (n - 1))
  | none =>
    match outputs_by_name outputs entry with
    | some out => .ok (with_primary out primary)
    | none => .error (.outputNotFoundName entry)

/-- The whole resolution loop: left to right, aborting on the first
failing entry. -/
def resolveRow (outputs : List Output) : List String → Except BeamerError (List Output)
  | [] => .ok []
  | e :: es =>
    match resolveEntry outputs e with
    | .error err => .error err
    | .ok o =>
      match resolveRow outputs es with
      | .error err => .error err
      | .ok rest => .ok (o :: rest)

/-- The "turn off unused" tail: `--output <name> --off` for every connected
output whose name is not among the row's names (`row_output_names`). -/
def rowOffArgs (row_outputs outputs : List Output) : List String :=
  (outputs.filter (fun o => !((row_outputs.map (·.name)).contains o.name))).flatMap
    (fun o => ["--output", o.name, "--off"])

/-- The argument tuple built from the resolved row (`row_outputs` in the
source): anchor, chained `--right-of` pairs from
`zip(row_outputs, row_outputs[1:])`, then `--off` for unmentioned connected
outputs.  The `[]` case models the `IndexError` of `row_outputs[0]`; it is
unreachable because the row is checked non-empty first. -/
def rowCmd : List Output → List Output → BeamerResult
  | [], _ => .crash
  | r0 :: rs, outputs =>
    .ok (["xrandr", "--output", r0.name, "--auto"]
      ++ ((r0 :: rs).zip rs).flatMap
           (fun lr => ["--output", lr.2.name, "--auto", "--right-of", lr.1.name]
             ++ (if lr.2.primary then ["--primary"] else []))
      ++ rowOffArgs (r0 :: rs) outputs)

/-- Embeds `beamer_row_args`, parameterised by the parsed batch. -/
def beamer_row_args (row : List String) (batch : List Output) : BeamerResult :=
  match row with
  | [] => .err .emptySelection
  | _ :: _ =>
    match resolveRow (connected_outputs batch) row with
    | .error e => .err e
    | .ok row_outputs => rowCmd row_outputs (connected_outputs batch)

/-! ## Concrete fixtures (modelled on the repository's test data) -/

def fixMode (w h : Int) : Mode :=
  { width := w, height := h, frequency := 60, active := false, preferred := false }

def fixOutput (nm : String) (conn : Bool) (ms : List Mode) : Output :=
  { name := nm, connected := conn, primary := false, width := none, height := none,
    xoffset := none, yoffset := none, info := "normal", physical_size := "None", modes := ms }

def outA : Output := fixOutput "A" true [fixMode 1920 1080, fixMode 800 600, fixMode 1024 768]
def outB : Output := fixOutput "B" true [fixMode 800 600, fixMode 1920 1080]
def outC : Output := fixOutput "C" true [fixMode 640 480]
def outD : Output := fixOutput "D" false []

/-- Two connected outputs A, B whose resolution sets intersect in exactly
(1920, 1080) and (800, 600). -/
def batchAB : List Output := [outA, outB]

/-- Three connected outputs. -/
def batchABC : List Output := [outA, outB, outC]

/-- A batch with no connected output. -/
def batchDisc : List Output := [outD]

/-- Two connected outputs with disjoint resolution sets. -/
def batchDisjoint : List Output :=
  [fixOutput "A" true [fixMode 800 600], fixOutput "B" true [fixMode 1024 768]]

/-- The groups captured from a disconnected header line of the repository's
test fixture (no geometry, no trailing physical size). -/
def gDP1 : OutputGroups :=
  { name := "DP1", connected := "disconnected", primary := none, geometry := none,
    info := "normal left inverted right x axis y axis", physical_size := none }

/-- The groups captured from a mode line of the repository's test fixture. -/
def gMode1 : ModeGroups :=
  { width := "1920", height := "1080", frequency := "60.01",
    active := some "*", preferred := some "+" }

/-! ## Helper lemmas -/

theorem tupleLt_eq_true_iff (a b : Int × Int) :
    tupleLt a b = true ↔ (a.1 < b.1 ∨ (a.1 = b.1 ∧ a.2 < b.2)) := by
  simp [tupleLt]

theorem tupleLt_irrefl (a : Int × Int) : tupleLt a a = false := by
  simp [tupleLt]

theorem tupleLt_aux1 {a y m : Int × Int}
    (h1 : tupleLt a y = true) (h2 : tupleLt m y = false) : tupleLt m a = false := by
  obtain ⟨a1, a2⟩ := a; obtain ⟨y1, y2⟩ := y; obtain ⟨m1, m2⟩ := m
  simp [tupleLt] at h1 h2 ⊢
  omega

theorem tupleLt_aux2 {a y m : Int × Int}
    (h1 : tupleLt a y = false) (h2 : tupleLt m a = false) : tupleLt m y = false := by
  obtain ⟨a1, a2⟩ := a; obtain ⟨y1, y2⟩ := y; obtain ⟨m1, m2⟩ := m
  simp [tupleLt] at h1 h2 ⊢
  omega

theorem pyMax_foldl_spec (xs : List (Int × Int)) : ∀ acc : Int × Int,
    (xs.foldl (fun a y => if tupleLt a y then y else a) acc = acc
      ∨ xs.foldl (fun a y => if tupleLt a y then y else a) acc ∈ xs)
    ∧ tupleLt (xs.foldl (fun a y => if tupleLt a y then y else a) acc) acc = false
    ∧ ∀ p ∈ xs, tupleLt (xs.foldl (fun a y => if tupleLt a y then y else a) acc) p = false := by
  induction xs with
  | nil =>
    intro acc
    exact ⟨Or.inl rfl, tupleLt_irrefl _, by simp⟩
  | cons y ys ih =>
    intro acc
    simp only [List.foldl_cons]
    by_cases hy : tupleLt acc y = true
    · rw [if_pos hy]
      obtain ⟨hmem, hge, hall⟩ := ih y
      refine ⟨?_, ?_, ?_⟩
      · rcases hmem with h | h
        · exact Or.inr (by rw [h]; exact List.mem_cons_self y ys)
        · exact Or.inr (List.mem_cons_of_mem y h)
      · exact tupleLt_aux1 hy hge
      · intro p hp
        rcases List.mem_cons.mp hp with rfl | hp
        · exact hge
        · exact hall p hp
    · rw [if_neg hy]
      obtain ⟨hmem, hge, hall⟩ := ih acc
      have hy' : tupleLt acc y = false := by
        cases h : tupleLt acc y
        · rfl
        · exact absurd h hy
      refine ⟨?_, hge, ?_⟩
      · rcases hmem with h | h
        · exact Or.inl h
        · exact Or.inr (List.mem_cons_of_mem y h)
      · intro p hp
        rcases List.mem_cons.mp hp with rfl | hp
        · exact tupleLt_aux2 hy' hge
        · exact hall p hp

theorem pyMax_mem {l : List (Int × Int)} {m : Int × Int}
    (h : pyMax l = some m) : m ∈ l := by
  cases l with
  | nil => exact Option.noConfusion h
  | cons x xs =>
    simp only [pyMax, Option.some.injEq] at h
    obtain ⟨hmem, _, _⟩ := pyMax_foldl_spec xs x
    rcases hmem with h' | h'
    · rw [← h, h']; exact List.mem_cons_self x xs
    · rw [← h]; exact List.mem_cons_of_mem x h'

theorem pyMax_max {l : List (Int × Int)} {m : Int × Int}
    (h : pyMax l = some m) : ∀ p ∈ l, tupleLt m p = false := by
  cases l with
  | nil => exact Option.noConfusion h
  | cons x xs =>
    simp only [pyMax, Option.some.injEq] at h
    obtain ⟨_, hge, hall⟩ := pyMax_foldl_spec xs x
    intro p hp
    rcases List.mem_cons.mp hp with rfl | hp
    · rw [← h]; exact hge
    · rw [← h]; exact hall p hp

theorem resolveEntry_ok_primary {outputs : List Output} {e : String} {o : Output}
    (h : resolveEntry outputs e = .ok o) : o.primary = strEndsBang e := by
  simp only [resolveEntry] at h
  split at h
  · split at h
    · simp only [Except.ok.injEq] at h
      subst h
      rfl
    · exact Except.noConfusion h
  · split at h
    · simp only [Except.ok.injEq] at h
      subst h
      rfl
    · exact Except.noConfusion h

theorem resolveEntry_error_shape {outputs : List Output} {e : String} {err : BeamerError}
    (h : resolveEntry outputs e = .error err) :
    (∃ i, err = .outputNotFoundNumber i) ∨ (∃ s, err = .outputNotFoundName s) := by
  simp only [resolveEntry] at h
  split at h
  · split at h
    · exact Except.noConfusion h
    · simp only [Except.error.injEq] at h
      exact Or.inl ⟨_, h.symm⟩
  · split at h
    · exact Except.noConfusion h
    · simp only [Except.error.injEq] at h
      exact Or.inr ⟨_, h.symm⟩

theorem resolveRow_length {outputs : List Output} :
    ∀ {row : List String} {ros : List Output},
      resolveRow outputs row = .ok ros → ros.length = row.length := by
  intro row
  induction row with
  | nil =>
    intro ros h
    simp only [resolveRow, Except.ok.injEq] at h
    rw [← h]
    rfl
  | cons e es ih =>
    intro ros h
    simp only [resolveRow] at h
    cases hE : resolveEntry outputs e with
    | error err => rw [hE] at h; exact Except.noConfusion h
    | ok o =>
      rw [hE] at h
      cases hR : resolveRow outputs es with
      | error err => rw [hR] at h; exact Except.noConfusion h
      | ok rest =>
        rw [hR] at h
        simp only [Except.ok.injEq] at h
        rw [← h]
        simp [ih hR]

theorem resolveRow_primary {outputs : List Output} :
    ∀ {row : List String} {ros : List Output},
      resolveRow outputs row = .ok ros →
      ∀ j (hj : j < ros.length) (hj' : j < row.length),
        (ros.get ⟨j, hj⟩).primary = strEndsBang (row.get ⟨j, hj'⟩) := by
  intro row
  induction row with
  | nil =>
    intro ros h j hj hj'
    exact absurd hj' (Nat.not_lt_zero j)
  | cons e es ih =>
    intro ros h j hj hj'
    simp only [resolveRow] at h
    cases hE : resolveEntry outputs e with
    | error err => rw [hE] at h; exact Except.noConfusion h
    | ok o =>
      rw [hE] at h
      cases hR : resolveRow outputs es with
      | error err => rw [hR] at h; exact Except.noConfusion h
      | ok rest =>
        rw [hR] at h
        simp only [Except.ok.injEq] at h
        subst h
        cases j with
        | zero => exact resolveEntry_ok_primary hE
        | succ j => exact ih hR j (Nat.lt_of_succ_lt_succ hj) (Nat.lt_of_succ_lt_succ hj')

theorem resolveRow_error_shape {outputs : List Output} :
    ∀ {row : List String} {err : BeamerError},
      resolveRow outputs row = .error err →
      (∃ i, err = .outputNotFoundNumber i) ∨ (∃ s, err = .outputNotFoundName s) := by
  intro row
  induction row with
  | nil =>
    intro err h
    exact Except.noConfusion h
  | cons e es ih =>
    intro err h
    simp only [resolveRow] at h
    cases hE : resolveEntry outputs e with
    | error err' =>
      rw [hE] at h
      simp only [Except.error.injEq] at h
      exact h ▸ resolveEntry_error_shape hE
    | ok o =>
      rw [hE] at h
      cases hR : resolveRow outputs es with
      | error err' =>
        rw [hR] at h
        simp only [Except.error.injEq] at h
        exact h ▸ ih hR
      | ok rest => rw [hR] at h; exact Except.noConfusion h

theorem beamer_row_args_of_ok {batch : List Output} {row : List String} {ros : List Output}
    (hne : row ≠ []) (h : resolveRow (connected_outputs batch) row = .ok ros) :
    beamer_row_args row batch = rowCmd ros (connected_outputs batch) := by
  cases row with
  | nil => exact absurd rfl hne
  | cons e es => simp only [beamer_row_args, h]

theorem beamer_row_args_of_error {batch : List Output} {row : List String} {err : BeamerError}
    (hne : row ≠ []) (h : resolveRow (connected_outputs batch) row = .error err) :
    beamer_row_args row batch = .err err := by
  cases row with
  | nil => exact absurd rfl hne
  | cons e es => simp only [beamer_row_args, h]

theorem rowCmd_head_congr (a b : Output) (hn : a.name = b.name)
    (rs outputs : List Output) : rowCmd (a :: rs) outputs = rowCmd (b :: rs) outputs := by
  cases rs with
  | nil => simp [rowCmd, rowOffArgs, hn]
  | cons r1 rs' => simp [rowCmd, rowOffArgs, hn]

theorem findFirstHeader_none (ls : List String)
    (h : ∀ l ∈ ls, outputMatch l = none) : findFirstHeader ls = none := by
  induction ls with
  | nil => rfl
  | cons l ls ih =>
    have hl : outputMatch l = none := h l (List.mem_cons_self l ls)
    simp only [findFirstHeader, hl]
    exact ih (fun x hx => h x (List.mem_cons_of_mem l hx))

/-! ## Claims -/

/-- C1: the code evaluated at the failing input.  The claim says
single-output(index) activates the connected output at ordinal `index` and
fails with `IndexNotConnected` when `index` is out of range; the code
(`beamer_single_output_args`) never reads `index` outside its error
message: called with `index = 1` (the `only` command, documented as "Only
activate the second monitor") on connected outputs `[A, B]` it still
activates `A` and turns `B` off — identical to `index = 0` — and it only
fails when *zero* outputs are connected. -/
theorem C1_code_behavior :
    beamer_single_output_args 1 batchAB
      = .ok ["xrandr", "--output", "A", "--auto", "--output", "B", "--off"]
    ∧ beamer_single_output_args 1 batchAB = beamer_single_output_args 0 batchAB :=
  ⟨rfl, rfl⟩

/-- C2: if no line of the input text matches the output-header pattern,
the query parser fails (the `lines.pop(0)` loop exhausts the list and
raises, modelled as `none` — the taxonomy's `ParseError`); in particular it
never returns `some []` or any partial sequence. -/
theorem C2_theorem (text : String)
    (h : ∀ cs ∈ splitNl text.data, outputMatch (⟨cs⟩ : String) = none) :
    scan_xrandr_outputs text = none := by
  have hlines : ∀ l ∈ splitLines text, outputMatch l = none := by
    intro l hl
    have hl' := List.mem_of_mem_drop hl
    obtain ⟨cs, hcs, rfl⟩ := List.mem_map.mp hl'
    exact h cs hcs
  unfold scan_xrandr_outputs
  rw [findFirstHeader_none _ hlines]

theorem C2_witness :
    scan_xrandr_outputs "Screen 0: minimum 8 x 8\nfoo bar\n" = none :=
  C2_theorem _ (by decide)

/-- C8: the side-by-side operation with a connected-output count other than
2 reports `WrongOutputCount` carrying the actual count and produces no
command. -/
theorem C8_theorem (side : Side) (batch : List Output)
    (h : (connected_outputs batch).length ≠ 2) :
    beamer_side_args side batch
      = .err (.wrongOutputCount (connected_outputs batch).length) := by
  rcases hc : connected_outputs batch with _ | ⟨a, _ | ⟨b, _ | ⟨c, t⟩⟩⟩
  · simp only [beamer_side_args, hc]
  · simp only [beamer_side_args, hc]
  · rw [hc] at h
    exact absurd rfl h
  · simp only [beamer_side_args, hc]

theorem C8_witness :
    beamer_side_args Side.left batchABC = .err (.wrongOutputCount 3)
    ∧ beamer_side_args Side.left [outA] = .err (.wrongOutputCount 1) := by
  constructor
  · exact C8_theorem Side.left batchABC (by decide)
  · exact C8_theorem Side.left [outA] (by decide)

/-- C9: `model_copy(update=dict(primary=p))` produces an `Output` whose
`primary` field is `p` and whose every other field is the original's (the
original, being a value in a pure embedding of a frozen pydantic model, is
itself unchanged). -/
theorem C9_theorem (o : Output) (p : Bool) :
    (with_primary o p).primary = p
    ∧ (with_primary o p).name = o.name
    ∧ (with_primary o p).connected = o.connected
    ∧ (with_primary o p).width = o.width
    ∧ (with_primary o p).height = o.height
    ∧ (with_primary o p).xoffset = o.xoffset
    ∧ (with_primary o p).yoffset = o.yoffset
    ∧ (with_primary o p).info = o.info
    ∧ (with_primary o p).physical_size = o.physical_size
    ∧ (with_primary o p).modes = o.modes :=
  ⟨rfl, rfl, rfl, rfl, rfl, rfl, rfl, rfl, rfl, rfl⟩

/-- C3 counterexample: the output-header line `"DP1 disconnected (...)"`
has no trailing physical-size text, so the `physical_size` group is
unmatched — yet the scanner's result mapping *does* contain a
`physical_size` entry, with the string value `"None"` (`str(None)`); the
claim says the entry must be absent. -/
theorem C3_counterexample :
    outputMatch "DP1 disconnected (normal left inverted right x axis y axis)" = some gDP1
    ∧ gDP1.physical_size = none
    ∧ dictLookup (sscanfOutputDict gDP1) "physical_size" = some (PyVal.vstr "None") := by
  refine ⟨by decide, rfl, by decide⟩

/-- C3 amended: for every line matched by either pattern, boolean marker
fields are present and `false` when the marker is absent, and `int`/`float`
cast fields of an unmatched group are omitted (so header lines without
geometry omit width/height/xoffset/yoffset, and mode dicts never carry a
`name` key); but `str`-cast fields are *always* present — an unmatched
`physical_size` group appears as the string `"None"`. -/
theorem C3_amended (line : String) :
    (∀ g, outputMatch line = some g →
      dictLookup (sscanfOutputDict g) "primary" = some (.vbool (pyTruthy g.primary))
      ∧ (g.geometry = none →
          dictLookup (sscanfOutputDict g) "width" = none
          ∧ dictLookup (sscanfOutputDict g) "height" = none
          ∧ dictLookup (sscanfOutputDict g) "xoffset" = none
          ∧ dictLookup (sscanfOutputDict g) "yoffset" = none)
      ∧ dictLookup (sscanfOutputDict g) "physical_size" = some (.vstr (pyStr g.physical_size))
      ∧ dictLookup (sscanfOutputDict g) "name" = some (.vstr g.name))
    ∧ (∀ mg, modeMatch line = some mg →
      dictLookup (sscanfModeDict mg) "name" = none
      ∧ dictLookup (sscanfModeDict mg) "active" = some (.vbool (pyTruthy mg.active))
      ∧ dictLookup (sscanfModeDict mg) "preferred" = some (.vbool (pyTruthy mg.preferred))) := by
  constructor
  · rintro ⟨nm, conn, prim, geo, inf, ps⟩ -
    cases geo with
    | none => exact ⟨rfl, fun _ => ⟨rfl, rfl, rfl, rfl⟩, rfl, rfl⟩
    | some q => exact ⟨rfl, fun hc => Option.noConfusion hc, rfl, rfl⟩
  · rintro ⟨wd, ht, fq, act, prf⟩ -
    exact ⟨rfl, rfl, rfl⟩

theorem C3_amended_witness :
    dictLookup (sscanfOutputDict gDP1) "primary" = some (PyVal.vbool false)
    ∧ dictLookup (sscanfOutputDict gDP1) "width" = none
    ∧ dictLookup (sscanfOutputDict gDP1) "physical_size" = some (PyVal.vstr "None")
    ∧ dictLookup (sscanfModeDict gMode1) "active" = some (PyVal.vbool true)
    ∧ dictLookup (sscanfModeDict gMode1) "name" = none := by
  have h1 := (C3_amended "DP1 disconnected (normal left inverted right x axis y axis)").1
    gDP1 (by decide)
  have h2 := (C3_amended "   1920x1080     60.01*+").2 gMode1 (by decide)
  exact ⟨h1.1, (h1.2.1 rfl).1, h1.2.2.1, h2.2.1, h2.1⟩

/-- C4: with a non-empty connected list whose resolution sets intersect
non-emptily (witnessed by `pyMax` returning a value), clone's chosen pair
is a member of the intersection, is lexicographically largest in it
(width compared first, then height), and the emitted command sets the
first connected output to that mode and every other connected output to
the same mode with `--same-as` naming the first. -/
theorem C4_theorem (batch : List Output) (o : Output) (os : List Output) (w h : Int)
    (h1 : connected_outputs batch = o :: os)
    (h2 : pyMax (cloneResolutions (o :: os)) = some (w, h)) :
    (w, h) ∈ cloneResolutions (o :: os)
    ∧ (∀ p ∈ cloneResolutions (o :: os), p.1 < w ∨ (p.1 = w ∧ p.2 ≤ h))
    ∧ beamer_clone_args batch
        = .ok (["xrandr", "--output", o.name, "--mode", toString w ++ "x" ++ toString h]
            ++ os.flatMap (fun out =>
                 ["--output", out.name, "--mode", toString w ++ "x" ++ toString h,
                  "--same-as", o.name])) := by
  refine ⟨pyMax_mem h2, ?_, ?_⟩
  · intro p hp
    have hf := pyMax_max h2 p hp
    obtain ⟨p1, p2⟩ := p
    simp [tupleLt] at hf
    omega
  · simp only [beamer_clone_args, h1, h2]

theorem C4_witness :
    beamer_clone_args batchAB
      = .ok ["xrandr", "--output", "A", "--mode", "1920x1080",
             "--output", "B", "--mode", "1920x1080", "--same-as", "A"]
    ∧ (1920, 1080) ∈ cloneResolutions [outA, outB]
    ∧ cloneResolutions [outA, outB] = [(1920, 1080), (800, 600)] := by
  have h := C4_theorem batchAB outA [outB] 1920 1080 (by decide) (by decide)
  refine ⟨?_, h.1, by decide⟩
  rw [h.2.2]
  decide

/-- C7 counterexample: with *zero* connected outputs (the claim's "fewer
than one" case) clone does not produce the `NoCommonResolution` diagnostic:
`set.intersection(*())` raises `TypeError`, which the `except ValueError`
handler does not catch — an unhandled crash. -/
theorem C7_counterexample :
    beamer_clone_args batchDisc = BeamerResult.crash
    ∧ beamer_clone_args batchDisc ≠ BeamerResult.err BeamerError.noCommonResolution := by
  decide

/-- C7 amended: with at least one connected output and an empty
resolution intersection, clone fails with the `NoCommonResolution`
diagnostic (with zero connected outputs it instead crashes — see the
counterexample). -/
theorem C7_amended (batch : List Output) (o : Output) (os : List Output)
    (h1 : connected_outputs batch = o :: os)
    (h2 : cloneResolutions (o :: os) = []) :
    beamer_clone_args batch = .err .noCommonResolution := by
  simp [beamer_clone_args, h1, h2, pyMax]

theorem C7_amended_witness :
    beamer_clone_args batchDisjoint = .err .noCommonResolution :=
  C7_amended batchDisjoint (fixOutput "A" true [fixMode 800 600])
    [fixOutput "B" true [fixMode 1024 768]] (by decide) (by decide)

/-- C5: when every selector of a row of length ≥ 2 resolves, the command
starts with the first resolved output as anchor (`--auto`, no positioning
clause), then each subsequent resolved output auto-configured and placed
`--right-of` its immediate left neighbour in the resolved list (chained
via `zip(row_outputs, row_outputs[1:])`), with `--primary` appended exactly
when its `primary` field is set — and each resolved output's `primary`
field equals whether its selector token ends with the `!` marker. -/
theorem C5_theorem (batch : List Output) (row : List String) (r0 r1 : Output)
    (rs : List Output)
    (h : resolveRow (connected_outputs batch) row = .ok (r0 :: r1 :: rs)) :
    beamer_row_args row batch
      = .ok (["xrandr", "--output", r0.name, "--auto"]
          ++ ((r0 :: r1 :: rs).zip (r1 :: rs)).flatMap
               (fun lr => ["--output", lr.2.name, "--auto", "--right-of", lr.1.name]
                 ++ (if lr.2.primary then ["--primary"] else []))
          ++ rowOffArgs (r0 :: r1 :: rs) (connected_outputs batch))
    ∧ (r0 :: r1 :: rs).length = row.length
    ∧ ∀ j (hj : j < (r0 :: r1 :: rs).length) (hj' : j < row.length),
        ((r0 :: r1 :: rs).get ⟨j, hj⟩).primary = strEndsBang (row.get ⟨j, hj'⟩) := by
  have hne : row ≠ [] := by
    intro hrow
    rw [hrow] at h
    simp only [resolveRow, Except.ok.injEq] at h
    exact List.noConfusion h
  refine ⟨?_, resolveRow_length h, resolveRow_primary h⟩
  rw [beamer_row_args_of_ok hne h]
  rfl

theorem C5_witness :
    beamer_row_args ["2", "1!"] batchAB
      = .ok ["xrandr", "--output", "B", "--auto",
             "--output", "A", "--auto", "--right-of", "B", "--primary"] := by
  have h := C5_theorem batchAB ["2", "1!"]
    (with_primary outB false) (with_primary outA true) [] rfl
  rw [h.1]
  decide

/-- C6 counterexample: with connected outputs named `A`, `B`, the selector
token `"0"` is neither a 1-based ordinal of the connected set nor the name
of any connected output, so by the claim the row operation must fail with
`OutputNotFound` — but the code computes `outputs[int("0") - 1] =
outputs[-1]` (Python negative indexing), resolves the *last* connected
output `B`, and succeeds. -/
theorem C6_counterexample :
    beamer_row_args ["0"] batchAB
      = .ok ["xrandr", "--output", "B", "--auto", "--output", "A", "--off"]
    ∧ (connected_outputs batchAB).map Output.name = ["A", "B"] := by
  decide

/-- C6 amended: when resolution of the selectors fails (an integer token
whose Pythonic index `int(token) - 1` — negative values counting from the
end — is out of range, or a non-integer token matching no connected
output's name), the row operation fails with that `OutputNotFound` error:
either the number form reporting the computed zero-based index, or the
name form reporting the token. -/
theorem C6_amended (batch : List Output) (row : List String) (err : BeamerError)
    (h1 : row ≠ []) (h2 : resolveRow (connected_outputs batch) row = .error err) :
    beamer_row_args row batch = .err err
    ∧ ((∃ i, err = .outputNotFoundNumber i) ∨ (∃ s, err = .outputNotFoundName s)) :=
  ⟨beamer_row_args_of_error h1 h2, resolveRow_error_shape h2⟩

theorem C6_amended_witness :
    beamer_row_args ["5"] batchAB = .err (.outputNotFoundNumber 4) :=
  (C6_amended batchAB ["5"] (.outputNotFoundNumber 4) (by decide) rfl).1

/-- C10: a trailing `!` marker on the *first* (anchor) selector has no
effect on the emitted command: the row command for `t` with the marker
equals the command for the marker-stripped token `t'`. -/
theorem C10_theorem (t t' : String) (rest : List String) (batch : List Output)
    (h1 : strEndsBang t = true) (h2 : strDropLast t = t')
    (h3 : strEndsBang t' = false) :
    beamer_row_args (t :: rest) batch = beamer_row_args (t' :: rest) batch := by
  have hE : resolveEntry (connected_outputs batch) t
      = (resolveEntry (connected_outputs batch) t').map (fun o => with_primary o true) := by
    simp only [resolveEntry, h1, h2, h3]
    simp only [if_true, Bool.false_eq_true, if_false]
    cases hp : pyIntParse t' with
    | none =>
      cases hN : outputs_by_name (connected_outputs batch) t' with
      | none => simp [hp, hN, Except.map]
      | some o => simp [hp, hN, Except.map, with_primary]
    | some n =>
      cases hI : pyIndex (connected_outputs batch) (n - 1) with
      | none => simp [hp, hI, Except.map]
      | some o => simp [hp, hI, Except.map, with_primary]
  cases hE' : resolveEntry (connected_outputs batch) t' with
  | error err =>
    have hT : resolveEntry (connected_outputs batch) t = .error err := by
      rw [hE, hE']
      rfl
    have r1 : resolveRow (connected_outputs batch) (t :: rest) = .error err := by
      simp [resolveRow, hT]
    have r2 : resolveRow (connected_outputs batch) (t' :: rest) = .error err := by
      simp [resolveRow, hE']
    rw [beamer_row_args_of_error (by simp) r1, beamer_row_args_of_error (by simp) r2]
  | ok o =>
    have hT : resolveEntry (connected_outputs batch) t = .ok (with_primary o true) := by
      rw [hE, hE']
      rfl
    cases hR : resolveRow (connected_outputs batch) rest with
    | error err =>
      have r1 : resolveRow (connected_outputs batch) (t :: rest) = .error err := by
        simp [resolveRow, hT, hR]
      have r2 : resolveRow (connected_outputs batch) (t' :: rest) = .error err := by
        simp [resolveRow, hE', hR]
      rw [beamer_row_args_of_error (by simp) r1, beamer_row_args_of_error (by simp) r2]
    | ok ros =>
      have r1 : resolveRow (connected_outputs batch) (t :: rest)
          = .ok (with_primary o true :: ros) := by
        simp [resolveRow, hT, hR]
      have r2 : resolveRow (connected_outputs batch) (t' :: rest) = .ok (o :: ros) := by
        simp [resolveRow, hE', hR]
      rw [beamer_row_args_of_ok (by simp) r1, beamer_row_args_of_ok (by simp) r2]
      exact rowCmd_head_congr (with_primary o true) o rfl ros (connected_outputs batch)

theorem C10_witness :
    beamer_row_args ["A!", "B"] batchAB = beamer_row_args ["A", "B"] batchAB :=
  C10_theorem "A!" "A" ["B"] batchAB (by decide) (by decide) (by decide)
